import Mathlib

/-!
Shallow embedding of the Apna_cart Flask application (`src/app.py`) and
verification of the specification's claims about its cart and checkout
behaviour.

The relational store (SQLite tables `users`, `products`, `cart`, `orders`,
`order_items`) is modelled as lists of records inside a `DB` structure.
Each Flask request handler that the claims mention is embedded as a pure
function on `DB`, translated statement-by-statement from the SQL it
executes.  SQLite `INTEGER` columns carry Python/SQLite integers with no
wrap-around at these magnitudes, so they are modelled as `Int`; row ids
are `Nat`.
-/

namespace ApnaCart

/-- A row of the `users` table: `id, username (UNIQUE), email (UNIQUE),
password`.  In the application `email` is always a (possibly empty)
string, never NULL. -/
structure User where
  id : Nat
  username : String
  email : String
  password : String
  deriving Repr, DecidableEq

/-- A row of the `products` table: `id, name, price INTEGER, image`. -/
structure Product where
  id : Nat
  name : String
  price : Int
  image : String
  deriving Repr, DecidableEq

/-- A row of the `cart` table: `user_id, product_id, quantity`, with the
schema constraint `UNIQUE(user_id, product_id)`. -/
structure CartLine where
  userId : Nat
  productId : Nat
  quantity : Int
  deriving Repr, DecidableEq

/-- A row of the `orders` table: `id, user_id, total_amount`.  The
`created_at` timestamp is server-assigned wall-clock time, irrelevant to
every claim, and omitted. -/
structure Order where
  id : Nat
  userId : Nat
  totalAmount : Int
  deriving Repr, DecidableEq

/-- A row of the `order_items` table:
`order_id, product_id, quantity, price_each`. -/
structure OrderItem where
  orderId : Nat
  productId : Nat
  quantity : Int
  priceEach : Int
  deriving Repr, DecidableEq

/-- The persistent store: one list per table, plus the AUTOINCREMENT
counters for `orders.id` and `users.id`. -/
structure DB where
  users : List User
  products : List Product
  cart : List CartLine
  orders : List Order
  orderItems : List OrderItem
  nextOrderId : Nat
  nextUserId : Nat
  deriving Repr, DecidableEq

/-- Does a cart line belong to user `uid` and product `pid`?  This is the
`WHERE user_id=? AND product_id=?` filter used by the cart handlers. -/
def CartLine.matches (c : CartLine) (uid pid : Nat) : Bool :=
  c.userId == uid && c.productId == pid

/-- The seed catalog inserted by `init_db` when the `products` table is
empty (ids are AUTOINCREMENT, starting at 1). -/
def seedProducts : List Product :=
  [⟨1, "Tomato-1 Kg", 200, "img/tomato.jpeg"⟩,
   ⟨2, "Beans-1 Kg", 100, "img/beans.jpeg"⟩,
   ⟨3, "Brinjal-1 Kg", 60, "img/brinjal.jpeg"⟩,
   ⟨4, "Potato-1 Kg", 50, "img/potato.jpeg"⟩,
   ⟨5, "Cabbage-1 Kg", 40, "img/Cabbage.jpg"⟩,
   ⟨6, "Onion-1 Kg", 70, "img/onion.jpg"⟩,
   ⟨7, "Cauliflower-1 Pc", 55, "img/cauliflower.jpg"⟩,
   ⟨8, "Lemon-6 Pc", 30, "img/lemon.jpg"⟩]

/-- Python's `str.strip()`: remove leading and trailing whitespace.  The
request handlers apply it to every form field before use. -/
def strip (s : String) : String :=
  ⟨(((s.data.dropWhile Char.isWhitespace).reverse).dropWhile Char.isWhitespace).reverse⟩

/-- `POST /cart/add/<product_id>` (`add_to_cart`): if a row for
`(user_id, product_id)` exists, `UPDATE cart SET quantity = quantity + 1`;
otherwise `INSERT INTO cart ... VALUES (?, ?, 1)`. -/
def add_to_cart (db : DB) (uid pid : Nat) : DB :=
  match db.cart.find? (fun c => c.matches uid pid) with
  | some _ =>
      { db with cart := db.cart.map (fun c =>
          if c.matches uid pid then { c with quantity := c.quantity + 1 } else c) }
  | none =>
      { db with cart := db.cart ++ [⟨uid, pid, 1⟩] }

/-- `POST /cart/update/<product_id>` (`update_cart`): the submitted
quantity is clamped by `qty = max(0, qty)`; at 0 the row is deleted
(`DELETE FROM cart WHERE user_id=? AND product_id=?`), otherwise the
existing row is updated in place
(`UPDATE cart SET quantity=? WHERE user_id=? AND product_id=?` — a plain
UPDATE, which touches no rows when none match). -/
def update_cart (db : DB) (uid pid : Nat) (qty : Int) : DB :=
  let q := max 0 qty
  if q = 0 then
    { db with cart := db.cart.filter (fun c => !(c.matches uid pid)) }
  else
    { db with cart := db.cart.map (fun c =>
        if c.matches uid pid then { c with quantity := q } else c) }

/-- `POST /cart/clear` (`clear_cart`): `DELETE FROM cart WHERE user_id=?`. -/
def clear_cart (db : DB) (uid : Nat) : DB :=
  { db with cart := db.cart.filter (fun c => !(c.userId == uid)) }

/-- The user's cart lines, i.e. `SELECT ... FROM cart WHERE user_id=?`. -/
def userCart (db : DB) (uid : Nat) : List CartLine :=
  db.cart.filter (fun c => c.userId == uid)

/-- Catalog lookup by product id (`JOIN products p ON p.id = c.product_id`;
`products.id` is the primary key, so at most one row matches). -/
def findProduct (db : DB) (pid : Nat) : Option Product :=
  db.products.find? (fun p => p.id == pid)

/-- The checkout query
`SELECT c.product_id, p.price, c.quantity FROM cart c JOIN products p
ON p.id = c.product_id WHERE c.user_id=?`: an inner join, so cart lines
whose product id matches no catalog row produce no result row. -/
def checkoutItems (db : DB) (uid : Nat) : List (Nat × Int × Int) :=
  (userCart db uid).filterMap (fun c =>
    (findProduct db c.productId).map (fun p => (c.productId, p.price, c.quantity)))

/-- Outcome of `POST /checkout`: `emptyCart` is the
`flash("Cart is empty."); redirect(cart)` branch, `ok` the redirect to the
thank-you page carrying the new order id. -/
inductive CheckoutResult where
  | emptyCart
  | ok (orderId : Nat)
  deriving Repr, DecidableEq

/-- `POST /checkout` (`checkout`): load the joined items; if empty, flash
and redirect with the store untouched; else compute
`total = sum(price * quantity)`, insert the order header, insert one
`order_items` row per joined line copying the current price into
`price_each`, delete the user's cart rows, and commit. -/
def checkout (db : DB) (uid : Nat) : CheckoutResult × DB :=
  let items := checkoutItems db uid
  if items.isEmpty then
    (.emptyCart, db)
  else
    let total := (items.map (fun i => i.2.1 * i.2.2)).sum
    let oid := db.nextOrderId
    (.ok oid,
      { db with
        orders := db.orders ++ [⟨oid, uid, total⟩],
        orderItems := db.orderItems ++
          items.map (fun i => ⟨oid, i.1, i.2.2, i.2.1⟩),
        cart := db.cart.filter (fun c => !(c.userId == uid)),
        nextOrderId := oid + 1 })

/-- Outcome of `POST /signup`:  `missingFields` is the
"Username and password are required." branch, `duplicateIdentity` the
caught `sqlite3.IntegrityError` ("Username or email already exists.",
re-rendering the signup form — a recoverable user error, not a crash),
`ok` the successful insert. -/
inductive SignupResult where
  | missingFields
  | duplicateIdentity
  | ok
  deriving Repr, DecidableEq

/-- `POST /signup` (`signup`): inputs are stripped; empty username or
password is rejected; the `INSERT INTO users` raises `IntegrityError`
exactly when the UNIQUE constraint on `username` or on `email` is violated
(in this app `email` is always a string, never NULL, so SQLite's
multiple-NULL allowance never applies). -/
def signup (db : DB) (username email password : String) : SignupResult × DB :=
  let u := strip username
  let e := strip email
  let p := strip password
  if u = "" ∨ p = "" then
    (.missingFields, db)
  else if db.users.any (fun w => w.username == u) ∨ db.users.any (fun w => w.email == e) then
    (.duplicateIdentity, db)
  else
    (.ok, { db with
            users := db.users ++ [⟨db.nextUserId, u, e, p⟩],
            nextUserId := db.nextUserId + 1 })

/-- Observable outcome of `POST /login`: success stores the user's id and
name in the session and redirects home; every failure takes the single
`flash("Invalid credentials."); render login` branch, carrying no other
information. -/
inductive LoginResponse where
  | loggedIn (uid : Nat) (uname : String)
  | invalidCredentials
  deriving Repr, DecidableEq

/-- `POST /login` (`login`): inputs are stripped and matched by
`SELECT id, username FROM users WHERE username=? AND password=?`. -/
def login (db : DB) (username password : String) : LoginResponse :=
  let u := strip username
  let p := strip password
  match db.users.find? (fun w => w.username == u && w.password == p) with
  | some w => .loggedIn w.id w.username
  | none => .invalidCredentials

/-! ## Concrete stores used as test inputs -/

/-- A store seeded by `init_db`, with one signed-up user "alice" (id 1)
and an empty cart. -/
def dbSeeded : DB :=
  ⟨[⟨1, "alice", "alice@example.com", "pw"⟩], seedProducts, [], [], [], 1, 2⟩

/-- The spec's scenario cart: Tomato (product 1, price 200) ×2 and Potato
(product 4, price 50) ×1, for user 1. -/
def scenarioDB : DB := { dbSeeded with cart := [⟨1, 1, 2⟩, ⟨1, 4, 1⟩] }

/-- The scenario cart plus a dangling line: product 99 is absent from the
catalog. -/
def danglingDB : DB :=
  { dbSeeded with cart := [⟨1, 1, 2⟩, ⟨1, 99, 3⟩, ⟨1, 4, 1⟩] }

/-- A cart consisting only of dangling lines. -/
def danglingOnlyDB : DB := { dbSeeded with cart := [⟨1, 99, 3⟩] }

/-! ## Helper lemmas -/

theorem CartLine.matches_iff {c : CartLine} {uid pid : Nat} :
    c.matches uid pid = true ↔ (c.userId = uid ∧ c.productId = pid) := by
  simp [CartLine.matches]

theorem map_id_of_mem_eq {α : Type} {l : List α} {f : α → α}
    (h : ∀ a ∈ l, f a = a) : l.map f = l := by
  induction l with
  | nil => rfl
  | cons a l ih =>
      simp only [List.map_cons, h a (List.mem_cons_self a l),
        ih (fun x hx => h x (List.mem_cons_of_mem a hx))]

/-- Deleting a user's rows and then selecting that user's rows yields
nothing. -/
theorem filter_userId_after_delete (l : List CartLine) (uid : Nat) :
    (l.filter (fun c => !(c.userId == uid))).filter (fun c => c.userId == uid) = [] := by
  induction l with
  | nil => rfl
  | cons c l ih =>
      by_cases h : c.userId = uid <;> simp [List.filter_cons, h, ih]

/-- Shape of a successful checkout. -/
theorem checkout_ok_shape (db : DB) (uid : Nat) (h : checkoutItems db uid ≠ []) :
    checkout db uid = (.ok db.nextOrderId,
      { db with
        orders := db.orders ++
          [⟨db.nextOrderId, uid,
            ((checkoutItems db uid).map (fun i => i.2.1 * i.2.2)).sum⟩],
        orderItems := db.orderItems ++
          (checkoutItems db uid).map (fun i => ⟨db.nextOrderId, i.1, i.2.2, i.2.1⟩),
        cart := db.cart.filter (fun c => !(c.userId == uid)),
        nextOrderId := db.nextOrderId + 1 }) := by
  simp [checkout, List.isEmpty_iff, h]

/-- Shape of a checkout that finds no joined items. -/
theorem checkout_empty_shape (db : DB) (uid : Nat) (h : checkoutItems db uid = []) :
    checkout db uid = (.emptyCart, db) := by
  simp [checkout, List.isEmpty_iff, h]

/-- A checkout that reports `ok` had a nonempty join result. -/
theorem checkout_ok_items_ne (db : DB) (uid : Nat) (oid : Nat)
    (h : (checkout db uid).1 = .ok oid) : checkoutItems db uid ≠ [] := by
  intro he
  rw [checkout_empty_shape db uid he] at h
  exact absurd h (by simp)

/-- After a successful checkout the user's cart selection is empty. -/
theorem userCart_after_checkout_ok (db : DB) (uid : Nat)
    (h : checkoutItems db uid ≠ []) :
    userCart (checkout db uid).2 uid = [] := by
  rw [checkout_ok_shape db uid h]
  exact filter_userId_after_delete db.cart uid

/-- The current catalog unit price of a product (0 when the product is
absent; only used under the hypothesis that it exists). -/
def priceOf (db : DB) (pid : Nat) : Int :=
  match findProduct db pid with
  | some p => p.price
  | none => 0

/-- The spec-side total: Σ (current catalog unit price × quantity) over
all of the user's cart lines. -/
def cartTotal (db : DB) (uid : Nat) : Int :=
  ((userCart db uid).map (fun c => priceOf db c.productId * c.quantity)).sum

/-- Over lines whose product exists, the join's `filterMap` is a plain
map. -/
theorem filterMap_join_of_isSome (db : DB) (l : List CartLine)
    (hjoin : ∀ c ∈ l, (findProduct db c.productId).isSome) :
    l.filterMap (fun c => (findProduct db c.productId).map
        (fun p => (c.productId, p.price, c.quantity)))
    = l.map (fun c => (c.productId, priceOf db c.productId, c.quantity)) := by
  induction l with
  | nil => rfl
  | cons c l ih =>
      obtain ⟨p, hp⟩ := Option.isSome_iff_exists.mp
        (hjoin c (List.mem_cons_self c l))
      simp only [List.filterMap_cons, hp, Option.map_some', List.map_cons]
      rw [ih (fun x hx => hjoin x (List.mem_cons_of_mem c hx))]
      simp [priceOf, hp]

/-- When every cart line's product exists in the catalog, the inner join
is a plain map over the user's cart lines. -/
theorem checkoutItems_of_join (db : DB) (uid : Nat)
    (hjoin : ∀ c ∈ userCart db uid, (findProduct db c.productId).isSome) :
    checkoutItems db uid =
      (userCart db uid).map
        (fun c => (c.productId, priceOf db c.productId, c.quantity)) :=
  filterMap_join_of_isSome db (userCart db uid) hjoin

/-! ## Claims -/

/-- **C1** (counterexample).  The claim says `setQuantity(user, product, qty)`
with `qty > 0` creates the cart line when none exists.  In the code the
`qty > 0` branch is a plain SQL UPDATE, which touches no rows when none
match: starting from a store whose cart is empty, `update_cart` with
quantity 5 still leaves the cart empty — no line is created. -/
theorem C1_counterexample :
    dbSeeded.cart = [] ∧ (update_cart dbSeeded 1 1 5).cart = [] := by
  decide

/-- **C1** (amended).  `setQuantity` with `qty ≤ 0` (0, or a negative
clamped to 0) deletes the (user, product) line; with `qty > 0` it stores
exactly `qty` on the existing line as an absolute set (not an increment);
but when no line for (user, product) exists, `qty > 0` is a no-op: no line
is created. -/
theorem C1_setQuantity (db : DB) (uid pid : Nat) (qty : Int) :
    (qty ≤ 0 →
      ∀ c ∈ (update_cart db uid pid qty).cart, ¬(c.userId = uid ∧ c.productId = pid)) ∧
    (0 < qty →
      ∀ c ∈ (update_cart db uid pid qty).cart,
        c.userId = uid → c.productId = pid → c.quantity = qty) ∧
    (0 < qty → (∀ c ∈ db.cart, ¬(c.userId = uid ∧ c.productId = pid)) →
      (update_cart db uid pid qty).cart = db.cart) := by
  refine ⟨?_, ?_, ?_⟩
  · intro hq c hc
    have hmax : max 0 qty = 0 := by omega
    simp only [update_cart, hmax, if_pos rfl] at hc
    have hf := (List.mem_filter.mp hc).2
    intro hand
    rw [Bool.not_eq_true', ← Bool.not_eq_true] at hf
    exact hf (CartLine.matches_iff.mpr hand)
  · intro hq c hc hu hp
    have hmax : max 0 qty = qty := by omega
    have hne : ¬(qty = 0) := by omega
    simp only [update_cart, hmax, if_neg hne] at hc
    obtain ⟨a, ha, rfl⟩ := List.mem_map.mp hc
    by_cases hm : a.matches uid pid
    · simp [hm]
    · exfalso
      simp only [if_neg hm] at hu hp
      exact hm (CartLine.matches_iff.mpr ⟨hu, hp⟩)
  · intro hq hnone
    have hmax : max 0 qty = qty := by omega
    have hne : ¬(qty = 0) := by omega
    simp only [update_cart, hmax, if_neg hne]
    exact map_id_of_mem_eq (fun a ha => by
      have : ¬(a.matches uid pid = true) := fun hm =>
        hnone a ha (CartLine.matches_iff.mp hm)
      simp [this])

/-- **C1** (witness). -/
theorem C1_setQuantity_witness :
    (update_cart dbSeeded 1 1 5).cart = dbSeeded.cart :=
  (C1_setQuantity dbSeeded 1 1 5).2.2 (by decide) (by decide)

/-- **C2**.  For a user with a non-empty cart all of whose lines join with
the catalog, checkout succeeds and persists an order header whose
`total_amount` is exactly Σ (current catalog unit price × quantity) over
the user's cart lines, in exact integer arithmetic. -/
theorem C2_checkout_total (db : DB) (uid : Nat)
    (hne : userCart db uid ≠ [])
    (hjoin : ∀ c ∈ userCart db uid, (findProduct db c.productId).isSome) :
    (checkout db uid).1 = .ok db.nextOrderId ∧
    (checkout db uid).2.orders =
      db.orders ++ [⟨db.nextOrderId, uid, cartTotal db uid⟩] := by
  have hmap := checkoutItems_of_join db uid hjoin
  have hne' : checkoutItems db uid ≠ [] := by
    rw [hmap]; simpa using hne
  rw [checkout_ok_shape db uid hne']
  refine ⟨rfl, ?_⟩
  rw [hmap, List.map_map]
  rfl

/-- **C2** (witness): the spec's scenario — Tomato×2 at 200 plus Potato×1
at 50 gives a recorded total of 450. -/
theorem C2_checkout_total_witness :
    ((checkout scenarioDB 1).1 = .ok scenarioDB.nextOrderId ∧
     (checkout scenarioDB 1).2.orders =
       scenarioDB.orders ++ [⟨scenarioDB.nextOrderId, 1, cartTotal scenarioDB 1⟩]) ∧
    cartTotal scenarioDB 1 = 450 :=
  ⟨C2_checkout_total scenarioDB 1 (by decide) (by decide), by decide⟩

/-- **C4**.  After a successful checkout the user's cart selection is
empty, and exactly one OrderItem was appended per cart line, recording the
line's quantity and, as `price_each`, the catalog unit price current at
checkout time. -/
theorem C4_checkout_clears_and_snapshots (db : DB) (uid : Nat)
    (hne : userCart db uid ≠ [])
    (hjoin : ∀ c ∈ userCart db uid, (findProduct db c.productId).isSome) :
    userCart (checkout db uid).2 uid = [] ∧
    (checkout db uid).2.orderItems = db.orderItems ++
      (userCart db uid).map
        (fun c => ⟨db.nextOrderId, c.productId, c.quantity, priceOf db c.productId⟩) := by
  have hmap := checkoutItems_of_join db uid hjoin
  have hne' : checkoutItems db uid ≠ [] := by
    rw [hmap]; simpa using hne
  refine ⟨userCart_after_checkout_ok db uid hne', ?_⟩
  rw [checkout_ok_shape db uid hne']
  show db.orderItems ++ (checkoutItems db uid).map _ = _
  rw [hmap, List.map_map]
  rfl

/-- **C4** (witness): in the Tomato×2@200 plus Potato×1@50 scenario, the
cart ends empty and the order has exactly 2 OrderItems, with `price_each`
200 and 50. -/
theorem C4_checkout_clears_and_snapshots_witness :
    (userCart (checkout scenarioDB 1).2 1 = [] ∧
     (checkout scenarioDB 1).2.orderItems = scenarioDB.orderItems ++
       (userCart scenarioDB 1).map
         (fun c => ⟨scenarioDB.nextOrderId, c.productId, c.quantity,
           priceOf scenarioDB c.productId⟩)) ∧
    (checkout scenarioDB 1).2.orderItems = [⟨1, 1, 2, 200⟩, ⟨1, 4, 1, 50⟩] :=
  ⟨C4_checkout_clears_and_snapshots scenarioDB 1 (by decide) (by decide), by decide⟩

/-- **C5**.  Checkout on a cart with no lines for the user fails with the
EmptyCart condition and leaves the whole store unchanged (in particular no
Order and no OrderItems are created); and a second checkout immediately
after a successful one, the cart having been cleared, likewise fails with
EmptyCart and changes nothing. -/
theorem C5_checkout_empty_cart (db : DB) (uid : Nat) :
    ((∀ c ∈ db.cart, c.userId ≠ uid) → checkout db uid = (.emptyCart, db)) ∧
    (∀ oid, (checkout db uid).1 = .ok oid →
      checkout (checkout db uid).2 uid = (.emptyCart, (checkout db uid).2)) := by
  constructor
  · intro h
    apply checkout_empty_shape
    have : userCart db uid = [] := by
      apply List.filter_eq_nil_iff.mpr
      intro c hc
      simpa using h c hc
    simp [checkoutItems, this]
  · intro oid hok
    have hne := checkout_ok_items_ne db uid oid hok
    apply checkout_empty_shape
    have : userCart (checkout db uid).2 uid = [] :=
      userCart_after_checkout_ok db uid hne
    simp [checkoutItems, this]

/-- **C5** (witness). -/
theorem C5_checkout_empty_cart_witness :
    checkout dbSeeded 1 = (.emptyCart, dbSeeded) ∧
    checkout (checkout scenarioDB 1).2 1 = (.emptyCart, (checkout scenarioDB 1).2) :=
  ⟨(C5_checkout_empty_cart dbSeeded 1).1 (by decide),
   (C5_checkout_empty_cart scenarioDB 1).2 1 (by decide)⟩

/-- **C8**.  Signup with a (stripped, non-empty) username that already
exists in the account store, or an email that already exists, takes the
caught-`IntegrityError` branch: it returns the recoverable
DuplicateIdentity outcome (re-rendering the form, not crashing) and leaves
the whole store — in particular the users table — unchanged. -/
theorem C8_signup_duplicate (db : DB) (username email password : String)
    (hu : strip username ≠ "") (hp : strip password ≠ "")
    (hdup : (∃ w ∈ db.users, w.username = strip username) ∨
            (∃ w ∈ db.users, w.email = strip email)) :
    signup db username email password = (.duplicateIdentity, db) := by
  simp only [signup]
  rw [if_neg (fun h => h.elim hu hp), if_pos]
  rcases hdup with ⟨w, hw, he⟩ | ⟨w, hw, he⟩
  · exact Or.inl (List.any_eq_true.mpr ⟨w, hw, by simp [he]⟩)
  · exact Or.inr (List.any_eq_true.mpr ⟨w, hw, by simp [he]⟩)

/-- **C8** (witness): signing up a second "alice" changes nothing. -/
theorem C8_signup_duplicate_witness :
    signup dbSeeded "alice" "second@example.com" "pw2" = (.duplicateIdentity, dbSeeded) :=
  C8_signup_duplicate dbSeeded "alice" "second@example.com" "pw2" (by decide) (by decide)
    (Or.inl ⟨⟨1, "alice", "alice@example.com", "pw"⟩, by decide, by decide⟩)

/-- **C9**.  Login succeeds exactly when the stripped submitted username
and password equal a stored user's credentials; and every failed login
yields the one InvalidCredentials response, so the unknown-username run
and the wrong-password run are observationally identical. -/
theorem C9_login_spec (db db1 db2 : DB) (uname pw u1 p1 u2 p2 : String)
    (h1 : ∀ w ∈ db1.users, w.username ≠ strip u1)
    (_hexists : ∃ w ∈ db2.users, w.username = strip u2)
    (h3 : ∀ w ∈ db2.users, w.username = strip u2 → w.password ≠ strip p2) :
    (login db uname pw ≠ .invalidCredentials ↔
      ∃ w ∈ db.users, w.username = strip uname ∧ w.password = strip pw) ∧
    (login db1 u1 p1 = .invalidCredentials ∧
     login db2 u2 p2 = .invalidCredentials ∧
     login db1 u1 p1 = login db2 u2 p2) := by
  refine ⟨?_, ?_⟩
  · simp only [login]
    cases hfind : db.users.find?
        (fun w => w.username == strip uname && w.password == strip pw) with
    | some w =>
        simp only []
        constructor
        · intro _
          have hpred := List.find?_some hfind
          simp only [Bool.and_eq_true, beq_iff_eq] at hpred
          exact ⟨w, List.mem_of_find?_eq_some hfind, hpred⟩
        · intro _
          simp
    | none =>
        simp only []
        constructor
        · intro h
          exact absurd rfl h
        · rintro ⟨w, hw, hu, hpw⟩ _
          have := List.find?_eq_none.mp hfind w hw
          simp [hu, hpw] at this
  · have hn1 : db1.users.find?
        (fun w => w.username == strip u1 && w.password == strip p1) = none :=
      List.find?_eq_none.mpr (fun w hw => by simp [h1 w hw])
    have hn2 : db2.users.find?
        (fun w => w.username == strip u2 && w.password == strip p2) = none :=
      List.find?_eq_none.mpr (fun w hw => by
        by_cases hu : w.username = strip u2
        · simp [h3 w hw hu]
        · simp [hu])
    refine ⟨?_, ?_, ?_⟩ <;> simp [login, hn1, hn2]

/-- **C9** (witness): unknown user "bob" and wrong password for "alice"
produce identical responses. -/
theorem C9_login_spec_witness :
    (login dbSeeded "alice" "pw" ≠ .invalidCredentials ↔
      ∃ w ∈ dbSeeded.users, w.username = strip "alice" ∧ w.password = strip "pw") ∧
    (login dbSeeded "bob" "pw" = .invalidCredentials ∧
     login dbSeeded "alice" "wrong" = .invalidCredentials ∧
     login dbSeeded "bob" "pw" = login dbSeeded "alice" "wrong") :=
  C9_login_spec dbSeeded dbSeeded dbSeeded "alice" "pw" "bob" "pw" "alice" "wrong"
    (by decide) ⟨⟨1, "alice", "alice@example.com", "pw"⟩, by decide, by decide⟩
    (by decide)

/-- The cart-store invariant: every stored line has quantity ≥ 1, and the
(user, product) key is unique — the schema's
`UNIQUE(user_id, product_id)` together with "quantity 0 ⇒ row deleted". -/
def CartInv (cart : List CartLine) : Prop :=
  (∀ c ∈ cart, 1 ≤ c.quantity) ∧
  cart.Pairwise (fun a b => ¬(a.userId = b.userId ∧ a.productId = b.productId))

/-- Deleting rows preserves the cart invariant. -/
theorem cartInv_filter (cart : List CartLine) (p : CartLine → Bool)
    (h : CartInv cart) : CartInv (cart.filter p) :=
  ⟨fun c hc => h.1 c (List.mem_of_mem_filter hc),
   h.2.sublist (List.filter_sublist cart)⟩

/-- An UPDATE that rewrites only the quantity of the rows matching a
(user, product) key preserves the cart invariant, provided the new
quantity is ≥ 1. -/
theorem cartInv_map_quantity (cart : List CartLine) (uid pid : Nat)
    (e : CartLine → Int) (h : CartInv cart)
    (he : ∀ c ∈ cart, c.matches uid pid = true → 1 ≤ e c) :
    CartInv (cart.map (fun c =>
      if c.matches uid pid then { c with quantity := e c } else c)) := by
  constructor
  · intro c hc
    obtain ⟨a, ha, rfl⟩ := List.mem_map.mp hc
    by_cases hm : a.matches uid pid
    · simp only [if_pos hm]
      exact he a ha hm
    · simp only [if_neg hm]
      exact h.1 a ha
  · rw [List.pairwise_map]
    refine h.2.imp ?_
    intro a b hr hcon
    apply hr
    by_cases hma : a.matches uid pid <;> by_cases hmb : b.matches uid pid <;>
      simpa [hma, hmb] using hcon

/-- **C6**.  Starting from a cart store satisfying the invariant
(quantities ≥ 1, one row per (user, product)), every cart operation —
adding (create-at-1 or increment-by-1), setting a quantity (delete at 0,
negatives clamped to 0, absolute set otherwise), clearing, and checkout's
cart deletion — yields a store satisfying the invariant again, so no
zero- or negative-quantity line can ever reach checkout. -/
theorem C6_cart_invariant (db : DB) (uid₁ pid₁ uid₂ pid₂ uid₃ uid₄ : Nat)
    (qty : Int) (h : CartInv db.cart) :
    CartInv (add_to_cart db uid₁ pid₁).cart ∧
    CartInv (update_cart db uid₂ pid₂ qty).cart ∧
    CartInv (clear_cart db uid₃).cart ∧
    CartInv (checkout db uid₄).2.cart := by
  refine ⟨?_, ?_, ?_, ?_⟩
  · cases hfind : db.cart.find? (fun c => c.matches uid₁ pid₁) with
    | some c₀ =>
        simp only [add_to_cart, hfind]
        exact cartInv_map_quantity db.cart uid₁ pid₁ (fun c => c.quantity + 1) h
          (fun c hc _ => by have := h.1 c hc; show 1 ≤ c.quantity + 1; omega)
    | none =>
        simp only [add_to_cart, hfind]
        have hnew : ∀ c ∈ db.cart, ¬(c.userId = uid₁ ∧ c.productId = pid₁) := by
          intro c hc hcon
          have := List.find?_eq_none.mp hfind c hc
          exact this (CartLine.matches_iff.mpr hcon)
        constructor
        · intro c hc
          rcases List.mem_append.mp hc with hmem | hmem
          · exact h.1 c hmem
          · simp at hmem
            simp [hmem]
        · rw [List.pairwise_append]
          refine ⟨h.2, List.pairwise_singleton _ _, ?_⟩
          intro a ha b hb
          simp only [List.mem_singleton] at hb
          subst hb
          intro hcon
          exact hnew a ha ⟨hcon.1, hcon.2⟩
  · by_cases hq : max 0 qty = 0
    · simp only [update_cart, if_pos hq]
      exact cartInv_filter db.cart _ h
    · simp only [update_cart, if_neg hq]
      exact cartInv_map_quantity db.cart uid₂ pid₂ (fun _ => max 0 qty) h
        (fun c _ _ => by show 1 ≤ max 0 qty; omega)
  · exact cartInv_filter db.cart _ h
  · by_cases hi : checkoutItems db uid₄ = []
    · rw [checkout_empty_shape db uid₄ hi]
      exact h
    · rw [checkout_ok_shape db uid₄ hi]
      exact cartInv_filter db.cart _ h

/-- **C6** (witness). -/
theorem C6_cart_invariant_witness :
    CartInv (add_to_cart scenarioDB 1 2).cart ∧
    CartInv (update_cart scenarioDB 1 1 7).cart ∧
    CartInv (clear_cart scenarioDB 1).cart ∧
    CartInv (checkout scenarioDB 1).2.cart :=
  C6_cart_invariant scenarioDB 1 2 1 1 1 1 7 (by constructor <;> decide)

/-- The three write statements between `checkout`'s empty-cart check and
its single `db.commit()`, in program order: insert the order header (which
assigns the AUTOINCREMENT row id), insert the order items, delete the
user's cart rows. -/
def checkoutWrites (uid : Nat) (items : List (Nat × Int × Int)) (oid : Nat)
    (total : Int) : List (DB → DB) :=
  [fun db => { db with
     orders := db.orders ++ [⟨oid, uid, total⟩], nextOrderId := oid + 1 },
   fun db => { db with
     orderItems := db.orderItems ++ items.map (fun i => ⟨oid, i.1, i.2.2, i.2.1⟩) },
   fun db => { db with
     cart := db.cart.filter (fun c => !(c.userId == uid)) }]

/-- Execute buffered transaction statements on the connection state.
`failures` is an adversarial oracle: `true` at position i means statement
i raises.  `none` models the aborted transaction: the exception propagates
before `db.commit()` is reached, so sqlite discards the uncommitted
changes on rollback and no statement's effect becomes observable. -/
def runTxn : DB → List (DB → DB) → List Bool → Option DB
  | db, [], _ => some db
  | _, _ :: _, true :: _ => none
  | db, w :: ws, false :: fs => runTxn (w db) ws fs
  | db, w :: ws, [] => runTxn (w db) ws []

/-- `checkout` with an explicit failure oracle over its transaction
statements: the new state is committed only if every statement succeeded,
otherwise the store is unchanged. -/
def checkoutWithFailures (db : DB) (uid : Nat) (failures : List Bool) : DB :=
  let items := checkoutItems db uid
  if items.isEmpty then db
  else
    match runTxn db (checkoutWrites uid items db.nextOrderId
        ((items.map (fun i => i.2.1 * i.2.2)).sum)) failures with
    | some db' => db'
    | none => db

/-- A three-statement transaction either aborts or applies all three
statements in order. -/
theorem runTxn_three (db : DB) (w₁ w₂ w₃ : DB → DB) (fs : List Bool) :
    runTxn db [w₁, w₂, w₃] fs = none ∨
    runTxn db [w₁, w₂, w₃] fs = some (w₃ (w₂ (w₁ db))) := by
  rcases fs with _ | ⟨b₁, fs⟩
  · right; rfl
  · cases b₁
    · rcases fs with _ | ⟨b₂, fs⟩
      · right; rfl
      · cases b₂
        · rcases fs with _ | ⟨b₃, fs⟩
          · right; rfl
          · cases b₃
            · right; rfl
            · left; rfl
        · left; rfl
    · left; rfl

/-- **C3**.  The order-header insert, the order-item inserts and the cart
deletion sit between one empty-cart check and one `db.commit()`: whatever
subset of the three statements fails, the observable store is either
exactly the pre-checkout store (rollback: no order header, no items, cart
untouched) or exactly the successful post-checkout store (commit: header,
all items, and cleared cart together) — never a partial mixture. -/
theorem C3_checkout_atomic (db : DB) (uid : Nat) (failures : List Bool) :
    checkoutWithFailures db uid failures = db ∨
    (checkoutWithFailures db uid failures = (checkout db uid).2 ∧
     (checkout db uid).1 = .ok db.nextOrderId) := by
  by_cases hi : (checkoutItems db uid).isEmpty
  · left
    simp [checkoutWithFailures, hi]
  · have hne : checkoutItems db uid ≠ [] := by
      simpa [List.isEmpty_iff] using hi
    rcases runTxn_three db
        (fun db' => { db' with
          orders := db'.orders ++
            [⟨db.nextOrderId, uid,
              ((checkoutItems db uid).map (fun i => i.2.1 * i.2.2)).sum⟩],
          nextOrderId := db.nextOrderId + 1 })
        (fun db' => { db' with
          orderItems := db'.orderItems ++
            (checkoutItems db uid).map (fun i => ⟨db.nextOrderId, i.1, i.2.2, i.2.1⟩) })
        (fun db' => { db' with
          cart := db'.cart.filter (fun c => !(c.userId == uid)) })
        failures with
      hrun | hrun
    · left
      simp [checkoutWithFailures, hi, checkoutWrites, hrun]
    · right
      rw [checkout_ok_shape db uid hne]
      refine ⟨?_, rfl⟩
      simp only [checkoutWithFailures, hi, if_neg, checkoutWrites, hrun]
      rfl

/-- Modelled from the spec: the application itself never edits the catalog
after seeding ("read-only thereafter"), but §3's snapshot invariant
quantifies over later catalog price changes; such an edit rewrites one
product's price in the `products` table and touches nothing else. -/
def set_price (db : DB) (pid : Nat) (newPrice : Int) : DB :=
  { db with products := db.products.map (fun p =>
      if p.id == pid then { p with price := newPrice } else p) }

/-- **C7**.  No operation mutates existing orders or order items: the cart
operations, signup and a catalog price edit leave the `orders` and
`order_items` tables exactly as they were, and checkout only appends to
them, preserving every existing row (so a recorded `price_each` and
`total_amount` never change after the fact). -/
theorem C7_orders_immutable (db : DB) (uid₁ pid₁ uid₂ pid₂ uid₃ uid₄ pid₅ : Nat)
    (qty price : Int) (username email password : String) :
    ((add_to_cart db uid₁ pid₁).orders = db.orders ∧
     (add_to_cart db uid₁ pid₁).orderItems = db.orderItems) ∧
    ((update_cart db uid₂ pid₂ qty).orders = db.orders ∧
     (update_cart db uid₂ pid₂ qty).orderItems = db.orderItems) ∧
    ((clear_cart db uid₃).orders = db.orders ∧
     (clear_cart db uid₃).orderItems = db.orderItems) ∧
    ((signup db username email password).2.orders = db.orders ∧
     (signup db username email password).2.orderItems = db.orderItems) ∧
    ((checkout db uid₄).2.orders.take db.orders.length = db.orders ∧
     (checkout db uid₄).2.orderItems.take db.orderItems.length = db.orderItems) ∧
    ((set_price db pid₅ price).orders = db.orders ∧
     (set_price db pid₅ price).orderItems = db.orderItems) := by
  refine ⟨?_, ?_, ⟨rfl, rfl⟩, ?_, ?_, ⟨rfl, rfl⟩⟩
  · cases hfind : db.cart.find? (fun c => c.matches uid₁ pid₁) <;>
      simp [add_to_cart, hfind]
  · by_cases hq : max 0 qty = 0 <;> simp [update_cart, hq]
  · simp only [signup]
    split
    · exact ⟨rfl, rfl⟩
    · split <;> exact ⟨rfl, rfl⟩
  · by_cases hi : checkoutItems db uid₄ = []
    · rw [checkout_empty_shape db uid₄ hi]
      exact ⟨List.take_length db.orders, List.take_length db.orderItems⟩
    · rw [checkout_ok_shape db uid₄ hi]
      exact ⟨List.take_left db.orders _, List.take_left db.orderItems _⟩

/-- Lines whose join key misses contribute nothing: restricting a list to
the elements on which `f` fires does not change `filterMap f`. -/
theorem filterMap_filter_isSome {α β : Type} (f : α → Option β) (l : List α) :
    (l.filter (fun a => (f a).isSome)).filterMap f = l.filterMap f := by
  induction l with
  | nil => rfl
  | cons a l ih =>
      cases hf : f a with
      | some b => simp [List.filter_cons, List.filterMap_cons, hf, ih]
      | none => simp [List.filter_cons, List.filterMap_cons, hf, ih]

/-- **C10**.  Cart lines whose product id matches no catalog product are
silently dropped by the inner join: deleting them from the cart store
leaves checkout's joined items unchanged; a user cart consisting only of
such dangling lines joins to nothing, so checkout fails with EmptyCart and
changes nothing; and a checkout that succeeds on the remaining lines still
deletes the dangling lines along with the rest of the user's cart. -/
theorem C10_dangling_lines (db : DB) (uid : Nat) :
    (checkoutItems
        { db with
          cart := db.cart.filter (fun c => (findProduct db c.productId).isSome) }
        uid
      = checkoutItems db uid) ∧
    ((∀ c ∈ userCart db uid, findProduct db c.productId = none) →
      checkout db uid = (.emptyCart, db)) ∧
    (∀ oid, (checkout db uid).1 = .ok oid →
      userCart (checkout db uid).2 uid = []) := by
  refine ⟨?_, ?_, ?_⟩
  · show ((db.cart.filter (fun c => (findProduct db c.productId).isSome)).filter
        (fun c => c.userId == uid)).filterMap
          (fun c => (findProduct db c.productId).map
            (fun p => (c.productId, p.price, c.quantity))) = _
    rw [List.filter_comm]
    have hsome : (fun c : CartLine => (findProduct db c.productId).isSome)
        = fun c : CartLine => ((findProduct db c.productId).map
            (fun p => (c.productId, p.price, c.quantity))).isSome := by
      funext c
      cases findProduct db c.productId <;> rfl
    rw [hsome]
    exact filterMap_filter_isSome _ _
  · intro hnone
    apply checkout_empty_shape
    apply List.filterMap_eq_nil_iff.mpr
    intro c hc
    simp [hnone c hc]
  · intro oid hok
    exact userCart_after_checkout_ok db uid (checkout_ok_items_ne db uid oid hok)

/-- **C10** (witness): a cart holding only a line for the absent product
99 checks out to EmptyCart with nothing changed; a cart holding the
scenario lines plus that dangling line checks out successfully and ends
with zero lines for the user. -/
theorem C10_dangling_lines_witness :
    checkout danglingOnlyDB 1 = (.emptyCart, danglingOnlyDB) ∧
    userCart (checkout danglingDB 1).2 1 = [] :=
  ⟨(C10_dangling_lines danglingOnlyDB 1).2.1 (by decide),
   (C10_dangling_lines danglingDB 1).2.2 1 (by decide)⟩

end ApnaCart
